import Mathlib

/-!
Verification of the tablet-server bootstrap sequence and periodic
maintenance scheduler (`src/tserver/tablet_server_main.cc`).

The embedding is a trace semantics: every external call the code makes
(metadata load, tablet open, peer lifecycle, flush, compact, usleep, …)
is recorded as an `Event`.  The outcomes of the external collaborator
calls (`kudu::Status` values) are supplied by oracles, since the
collaborators themselves are outside this translation unit.  A failed
`CHECK_OK` aborts the process, so a trace stops at the first failing
call.

Machine integers: `FLAGS_flush_threshold_mb` is a gflags `int32`; the
product `FLAGS_flush_threshold_mb * 1024 * 1024` is 32-bit signed
arithmetic, modelled by explicit reduction into `[-2^31, 2^31)`.  The
comparison against `MemRowSetSize()` (a `size_t`) converts that `int` to
an unsigned 64-bit value, modelled by `asSizeT`.
-/

/-- Result of an external collaborator call (`kudu::Status`): either OK
or some failure.  `CHECK_OK` aborts the process on `error`. -/
inductive Status
  | ok
  | error
deriving DecidableEq, Repr

/-- The compaction flag argument.  The source passes
`Tablet::COMPACT_NO_FLAGS` (no special flags) and nothing else. -/
inductive CompactFlags
  | noFlags
deriving DecidableEq, Repr

/-- Observable actions of `tablet_server_main.cc`, in the order the code
performs them. -/
inductive Event
  | memCheck (usageBytes : Nat)      -- `tablet->MemRowSetSize()` read
  | flushCall                        -- `tablet->Flush()`
  | compactCall (flags : CompactFlags) -- `tablet->Compact(flags)`
  | usleepCall (micros : Nat)        -- `usleep(micros)`
  | loadOrCreateCall                 -- `TabletMetadata::LoadOrCreate(...)`
  | constructTablet                  -- `new Tablet(meta.Pass())`
  | openCall                         -- `twitter_tablet_->Open()`
  | constructPeer                    -- `new TabletPeer(...)`
  | initCall                         -- `tablet_peer->Init()`
  | startCall                        -- `tablet_peer->Start()`
  | registerCall                     -- `tablet_manager()->RegisterTablet(...)`
  | serverInitCall                   -- `server.Init()`
  | startMaintenanceThreads          -- `boost::thread(CompactThread/FlushThread, ...)`
  | serverStartCall                  -- `server.Start()`
  | printUsage                       -- `std::cerr << "usage: " << argv[0]`
deriving DecidableEq, Repr

/-- Reduce an integer into the value range of a 32-bit signed machine
integer, `[-2^31, 2^31)`, as two's-complement arithmetic does. -/
def wrap32 (z : Int) : Int :=
  (z + 2 ^ 31) % 2 ^ 32 - 2 ^ 31

/-- Convert a C `int` value to `size_t` (unsigned 64-bit), as the usual
arithmetic conversions do when it is compared with `MemRowSetSize()`. -/
def asSizeT (z : Int) : Nat :=
  (z % 2 ^ 64).toNat

/-- Default of `DEFINE_int32(flush_threshold_mb, 64, ...)`. -/
def FLAGS_flush_threshold_mb_default : Int := 64

/-- The flush threshold in bytes: `FLAGS_flush_threshold_mb * 1024 * 1024`
evaluated in 32-bit signed arithmetic. -/
def flushThresholdBytes (flagMb : Int) : Int :=
  wrap32 (flagMb * 1024 * 1024)

/-- The threshold value actually compared against `MemRowSetSize()`:
the 32-bit product converted to `size_t`. -/
def thresholdSizeT (flagMb : Int) : Nat :=
  asSizeT (flushThresholdBytes flagMb)

/-- State of a maintenance loop after some iterations: still running,
process aborted by a failed `CHECK_OK`, or exited normally (no code
path produces `exited`; it exists so that its absence is a theorem). -/
inductive RunState
  | running
  | aborted
  | exited
deriving DecidableEq, Repr

/-- One iteration of the `FlushThread` loop body:
read `MemRowSetSize()`, flush iff it strictly exceeds the threshold
(`CHECK_OK` aborting on a flush failure), otherwise only log, then
`usleep(250 * 1000)`. -/
def flushIteration (flagMb : Int) (usage : Nat) (flushResult : Status) :
    List Event × RunState :=
  if thresholdSizeT flagMb < usage then
    match flushResult with
    | Status.ok =>
        ([Event.memCheck usage, Event.flushCall, Event.usleepCall (250 * 1000)],
         RunState.running)
    | Status.error =>
        ([Event.memCheck usage, Event.flushCall], RunState.aborted)
  else
    ([Event.memCheck usage, Event.usleepCall (250 * 1000)], RunState.running)

/-- One iteration of the `CompactThread` loop body:
`CHECK_OK(tablet->Compact(Tablet::COMPACT_NO_FLAGS))` unconditionally,
then `usleep(3000 * 1000)`. -/
def compactIteration (compactResult : Status) : List Event × RunState :=
  match compactResult with
  | Status.ok =>
      ([Event.compactCall CompactFlags.noFlags, Event.usleepCall (3000 * 1000)],
       RunState.running)
  | Status.error =>
      ([Event.compactCall CompactFlags.noFlags], RunState.aborted)

/-- Sequence a finished run with one more iteration: the next iteration
runs only while the process is still alive. -/
def stepRun (p q : List Event × RunState) : List Event × RunState :=
  match p.2 with
  | RunState.running => (p.1 ++ q.1, q.2)
  | _ => p

/-- The first `n` iterations of the `FlushThread` `while (true)` loop,
with the memory usage observed at iteration `i` given by `uAt i` and
the result of a flush attempted at iteration `i` given by `fAt i`. -/
def flushRun (flagMb : Int) (uAt : Nat → Nat) (fAt : Nat → Status) :
    Nat → List Event × RunState
  | 0 => ([], RunState.running)
  | n + 1 => stepRun (flushRun flagMb uAt fAt n)
      (flushIteration flagMb (uAt n) (fAt n))

/-- The first `n` iterations of the `CompactThread` `while (true)` loop,
with the result of the compact call at iteration `i` given by `rAt i`. -/
def compactRun (rAt : Nat → Status) : Nat → List Event × RunState
  | 0 => ([], RunState.running)
  | n + 1 => stepRun (compactRun rAt n) (compactIteration (rAt n))

/-- Recognise a compact call in a trace. -/
def isCompact : Event → Bool
  | Event.compactCall _ => true
  | _ => false

/-- Recognise a sleep in a trace. -/
def isSleep : Event → Bool
  | Event.usleepCall _ => true
  | _ => false

/-- Microseconds in the given number of milliseconds (`usleep` takes
microseconds). -/
def millisToMicros (ms : Nat) : Nat := ms * 1000

/-- Results of the external calls made during bootstrap
(`TemporaryTabletsForDemos` constructor plus the peer lifecycle in
`TabletServerMain`). -/
structure BootstrapOracle where
  loadOrCreate : Status
  openTablet : Status
  peerInit : Status
  peerStart : Status
deriving DecidableEq, Repr

/-- Outcome of the bootstrap sequence. -/
inductive BootResult
  | completed
  | aborted
deriving DecidableEq, Repr

/-- The bootstrap sequence of `tablet_server_main.cc`:
`TabletMetadata::LoadOrCreate` (CHECK_OK), `new Tablet`,
`Tablet::Open` (CHECK_OK), `new TabletPeer`, `TabletPeer::Init`
(CHECK_OK), `TabletPeer::Start` (CHECK_OK),
`tablet_manager()->RegisterTablet`.  Each failed `CHECK_OK` aborts the
process at that point. -/
def bootstrap (o : BootstrapOracle) : List Event × BootResult :=
  match o.loadOrCreate with
  | Status.error => ([Event.loadOrCreateCall], BootResult.aborted)
  | Status.ok =>
    match o.openTablet with
    | Status.error =>
        ([Event.loadOrCreateCall, Event.constructTablet, Event.openCall],
         BootResult.aborted)
    | Status.ok =>
      match o.peerInit with
      | Status.error =>
          ([Event.loadOrCreateCall, Event.constructTablet, Event.openCall,
            Event.constructPeer, Event.initCall], BootResult.aborted)
      | Status.ok =>
        match o.peerStart with
        | Status.error =>
            ([Event.loadOrCreateCall, Event.constructTablet, Event.openCall,
              Event.constructPeer, Event.initCall, Event.startCall],
             BootResult.aborted)
        | Status.ok =>
            ([Event.loadOrCreateCall, Event.constructTablet, Event.openCall,
              Event.constructPeer, Event.initCall, Event.startCall,
              Event.registerCall], BootResult.completed)

/-- The canonical order of the bootstrap steps; every bootstrap trace is
an initial segment of this list. -/
def bootstrapOrder : List Event :=
  [Event.loadOrCreateCall, Event.constructTablet, Event.openCall,
   Event.constructPeer, Event.initCall, Event.startCall, Event.registerCall]

/-- How many of the bootstrap steps run before the first failing
`CHECK_OK` stops the process (all seven when every call succeeds). -/
def bootstrapSteps (o : BootstrapOracle) : Nat :=
  match o.loadOrCreate with
  | Status.error => 1
  | Status.ok =>
    match o.openTablet with
    | Status.error => 3
    | Status.ok =>
      match o.peerInit with
      | Status.error => 5
      | Status.ok =>
        match o.peerStart with
        | Status.error => 6
        | Status.ok => 7

/-- Results of the external calls made by `TabletServerMain` outside
bootstrap. -/
structure MainOracle where
  serverInit : Status
  boot : BootstrapOracle
  serverStart : Status
deriving DecidableEq, Repr

/-- Outcome of `TabletServerMain`: an explicit return code, the final
`while (true) sleep(60)` loop (never returns), or a `CHECK_OK` abort. -/
inductive MainResult
  | exitCode (code : Int)
  | runningForever
  | aborted
deriving DecidableEq, Repr

/-- `TabletServerMain` after `ParseCommandLineFlags`: with a positional
argument left (`argc != 1`) it prints usage and returns 1; otherwise it
runs `server.Init()` (CHECK_OK), the bootstrap sequence, starts the
maintenance threads, runs `server.Start()` (CHECK_OK) and enters the
infinite sleep loop. -/
def tabletServerMain (argcAfterFlagParse : Nat) (o : MainOracle) :
    List Event × MainResult :=
  if argcAfterFlagParse ≠ 1 then
    ([Event.printUsage], MainResult.exitCode 1)
  else
    match o.serverInit with
    | Status.error => ([Event.serverInitCall], MainResult.aborted)
    | Status.ok =>
      match (bootstrap o.boot).2 with
      | BootResult.aborted =>
          (Event.serverInitCall :: (bootstrap o.boot).1, MainResult.aborted)
      | BootResult.completed =>
        match o.serverStart with
        | Status.error =>
            (Event.serverInitCall :: ((bootstrap o.boot).1 ++
               [Event.startMaintenanceThreads, Event.serverStartCall]),
             MainResult.aborted)
        | Status.ok =>
            (Event.serverInitCall :: ((bootstrap o.boot).1 ++
               [Event.startMaintenanceThreads, Event.serverStartCall]),
             MainResult.runningForever)

/-- `wrap32` is the identity on values already in 32-bit range. -/
lemma wrap32_eq_self (z : Int) (hlo : -(2 ^ 31) ≤ z) (hhi : z < 2 ^ 31) :
    wrap32 z = z := by
  unfold wrap32
  rw [Int.emod_eq_of_lt (by linarith) (by norm_num; linarith)]
  ring

/-- C1: in every `FlushThread` iteration, `Flush()` is called iff the
memory usage read strictly exceeds the threshold; at usage exactly equal
to the threshold the iteration performs no flush, continues running
(no abort) and just sleeps. -/
theorem flushTask_flush_iff_strictly_over_threshold
    (flagMb : Int) (usage : Nat) (r : Status) :
    (Event.flushCall ∈ (flushIteration flagMb usage r).1 ↔
      thresholdSizeT flagMb < usage) ∧
    flushIteration flagMb (thresholdSizeT flagMb) r =
      ([Event.memCheck (thresholdSizeT flagMb),
        Event.usleepCall (millisToMicros 250)], RunState.running) := by
  constructor
  · by_cases h : thresholdSizeT flagMb < usage <;>
      cases r <;> simp [flushIteration, h]
  · simp [flushIteration, millisToMicros]

/-- C5 (counterexample): at flag value 2048 the 32-bit product wraps, so
the computed threshold is not 2048 × 1,048,576. -/
theorem flushThreshold_formula_counterexample :
    flushThresholdBytes 2048 ≠ 2048 * 1048576 := by
  decide

/-- C5 (amended): whenever the product fits in a 32-bit signed integer
(flag between -2048 and 2047) the threshold in bytes equals the flag
value times 1,048,576; the flag default is 64, so the default threshold
is 67,108,864 bytes. -/
theorem flushThreshold_formula_in_range
    (flagMb : Int) (hlo : -2048 ≤ flagMb) (hhi : flagMb ≤ 2047) :
    flushThresholdBytes flagMb = flagMb * 1048576 ∧
    FLAGS_flush_threshold_mb_default = 64 ∧
    flushThresholdBytes FLAGS_flush_threshold_mb_default = 67108864 := by
  refine ⟨?_, rfl, by decide⟩
  show wrap32 (flagMb * 1024 * 1024) = flagMb * 1048576
  rw [wrap32_eq_self (flagMb * 1024 * 1024) (by linarith) (by norm_num; linarith)]
  ring

/-- C5 witness: the amended statement at the default flag value. -/
theorem flushThreshold_formula_in_range_witness :
    flushThresholdBytes 64 = 64 * 1048576 ∧
    FLAGS_flush_threshold_mb_default = 64 ∧
    flushThresholdBytes FLAGS_flush_threshold_mb_default = 67108864 :=
  flushThreshold_formula_in_range 64 (by norm_num) (by norm_num)

/-- C6 (counterexample): at flag value 0 the derived threshold is 0, so
the invariant `flushThresholdBytes > 0` does not hold for every flag. -/
theorem flushThreshold_positive_counterexample :
    ¬ (0 < flushThresholdBytes 0) := by
  decide

/-- C6 (amended): the invariant `flushThresholdBytes > 0` holds whenever
the flag value is between 1 and 2047 (the default 64 included); it fails
for zero, negative, and wrapping flag values. -/
theorem flushThreshold_positive_in_range
    (flagMb : Int) (h1 : 1 ≤ flagMb) (h2 : flagMb ≤ 2047) :
    0 < flushThresholdBytes flagMb := by
  show 0 < wrap32 (flagMb * 1024 * 1024)
  rw [wrap32_eq_self (flagMb * 1024 * 1024) (by linarith) (by norm_num; linarith)]
  nlinarith

/-- C6 witness: positivity at the default flag value. -/
theorem flushThreshold_positive_in_range_witness :
    0 < flushThresholdBytes 64 :=
  flushThreshold_positive_in_range 64 (by norm_num) (by norm_num)

/-- A flush iteration never reports a normal loop exit. -/
lemma flushIteration_not_exited (flagMb : Int) (usage : Nat) (r : Status) :
    (flushIteration flagMb usage r).2 ≠ RunState.exited := by
  by_cases hg : thresholdSizeT flagMb < usage <;>
    cases r <;> simp [flushIteration, hg]

/-- A flush iteration always performs at least the memory-usage read. -/
lemma flushIteration_trace_ne_nil (flagMb : Int) (usage : Nat) (r : Status) :
    (flushIteration flagMb usage r).1 ≠ [] := by
  by_cases hg : thresholdSizeT flagMb < usage <;>
    cases r <;> simp [flushIteration, hg]

/-- The only way a flush iteration aborts is a failed flush call. -/
lemma flushIteration_aborted_flush_failed (flagMb : Int) (usage : Nat) (r : Status)
    (h : (flushIteration flagMb usage r).2 = RunState.aborted) : r = Status.error := by
  by_cases hg : thresholdSizeT flagMb < usage
  · cases r with
    | ok => simp [flushIteration, hg] at h
    | error => rfl
  · simp [flushIteration, hg] at h

/-- A flush iteration starts with the memory-usage read. -/
lemma flushIteration_head (flagMb : Int) (usage : Nat) (r : Status) :
    (flushIteration flagMb usage r).1.head? = some (Event.memCheck usage) := by
  by_cases hg : thresholdSizeT flagMb < usage <;>
    cases r <;> simp [flushIteration, hg]

/-- A compact iteration never reports a normal loop exit. -/
lemma compactIteration_not_exited (r : Status) :
    (compactIteration r).2 ≠ RunState.exited := by
  cases r <;> simp [compactIteration]

/-- A compact iteration always performs at least the compact call. -/
lemma compactIteration_trace_ne_nil (r : Status) :
    (compactIteration r).1 ≠ [] := by
  cases r <;> simp [compactIteration]

/-- The only way a compact iteration aborts is a failed compact call. -/
lemma compactIteration_aborted_compact_failed (r : Status)
    (h : (compactIteration r).2 = RunState.aborted) : r = Status.error := by
  cases r with
  | ok => simp [compactIteration] at h
  | error => rfl

/-- A compact iteration starts with the compact call. -/
lemma compactIteration_head (r : Status) :
    (compactIteration r).1.head? = some (Event.compactCall CompactFlags.noFlags) := by
  cases r <;> rfl

/-- A compact iteration issues exactly one compact call, with no flags. -/
lemma compactIteration_one_compact (r : Status) :
    (compactIteration r).1.filter isCompact =
      [Event.compactCall CompactFlags.noFlags] := by
  cases r <;> rfl

/-- While the previous run is still alive, sequencing appends the next
iteration. -/
lemma stepRun_running (p q : List Event × RunState)
    (h : p.2 = RunState.running) : stepRun p q = (p.1 ++ q.1, q.2) := by
  simp [stepRun, h]

/-- Once the run is no longer alive, later iterations do nothing. -/
lemma stepRun_not_running (p q : List Event × RunState)
    (h : p.2 ≠ RunState.running) : stepRun p q = p := by
  cases hp : p.2 with
  | running => exact absurd hp h
  | aborted => simp [stepRun, hp]
  | exited => simp [stepRun, hp]

/-- The flush loop never reaches a normal-exit state. -/
lemma flushRun_not_exited (flagMb : Int) (uAt : Nat → Nat) (fAt : Nat → Status) :
    ∀ n, (flushRun flagMb uAt fAt n).2 ≠ RunState.exited := by
  intro n
  induction n with
  | zero => simp [flushRun]
  | succ n ih =>
    show (stepRun (flushRun flagMb uAt fAt n)
        (flushIteration flagMb (uAt n) (fAt n))).2 ≠ _
    cases hp : (flushRun flagMb uAt fAt n).2 with
    | running =>
        rw [stepRun_running _ _ hp]
        exact flushIteration_not_exited _ _ _
    | aborted =>
        rw [stepRun_not_running _ _ (by rw [hp]; simp), hp]
        simp
    | exited => exact absurd hp ih

/-- The compact loop never reaches a normal-exit state. -/
lemma compactRun_not_exited (rAt : Nat → Status) :
    ∀ n, (compactRun rAt n).2 ≠ RunState.exited := by
  intro n
  induction n with
  | zero => simp [compactRun]
  | succ n ih =>
    show (stepRun (compactRun rAt n) (compactIteration (rAt n))).2 ≠ _
    cases hp : (compactRun rAt n).2 with
    | running =>
        rw [stepRun_running _ _ hp]
        exact compactIteration_not_exited _
    | aborted =>
        rw [stepRun_not_running _ _ (by rw [hp]; simp), hp]
        simp
    | exited => exact absurd hp ih

/-- While alive, the flush loop strictly extends its trace each iteration. -/
lemma flushRun_growth (flagMb : Int) (uAt : Nat → Nat) (fAt : Nat → Status) (n : Nat)
    (h : (flushRun flagMb uAt fAt n).2 = RunState.running) :
    (flushRun flagMb uAt fAt n).1.length < (flushRun flagMb uAt fAt (n + 1)).1.length := by
  show _ < (stepRun (flushRun flagMb uAt fAt n)
      (flushIteration flagMb (uAt n) (fAt n))).1.length
  rw [stepRun_running _ _ h]
  have hq := List.length_pos.mpr (flushIteration_trace_ne_nil flagMb (uAt n) (fAt n))
  simp only [List.length_append]
  omega

/-- While alive, the compact loop strictly extends its trace each iteration. -/
lemma compactRun_growth (rAt : Nat → Status) (n : Nat)
    (h : (compactRun rAt n).2 = RunState.running) :
    (compactRun rAt n).1.length < (compactRun rAt (n + 1)).1.length := by
  show _ < (stepRun (compactRun rAt n) (compactIteration (rAt n))).1.length
  rw [stepRun_running _ _ h]
  have hq := List.length_pos.mpr (compactIteration_trace_ne_nil (rAt n))
  simp only [List.length_append]
  omega

/-- If the flush loop aborted, some earlier flush call failed. -/
lemma flushRun_aborted_failure (flagMb : Int) (uAt : Nat → Nat) (fAt : Nat → Status) :
    ∀ n, (flushRun flagMb uAt fAt n).2 = RunState.aborted →
      ∃ k, k < n ∧ fAt k = Status.error := by
  intro n
  induction n with
  | zero => intro h; simp [flushRun] at h
  | succ n ih =>
    intro h
    cases hp : (flushRun flagMb uAt fAt n).2 with
    | running =>
        have hstep : flushRun flagMb uAt fAt (n + 1) =
            ((flushRun flagMb uAt fAt n).1 ++ (flushIteration flagMb (uAt n) (fAt n)).1,
             (flushIteration flagMb (uAt n) (fAt n)).2) := by
          show stepRun _ _ = _
          rw [stepRun_running _ _ hp]
        rw [hstep] at h
        exact ⟨n, Nat.lt_succ_self n,
          flushIteration_aborted_flush_failed _ _ _ h⟩
    | aborted =>
        obtain ⟨k, hk, he⟩ := ih hp
        exact ⟨k, Nat.lt_succ_of_lt hk, he⟩
    | exited => exact absurd hp (flushRun_not_exited flagMb uAt fAt n)

/-- If the compact loop aborted, some earlier compact call failed. -/
lemma compactRun_aborted_failure (rAt : Nat → Status) :
    ∀ n, (compactRun rAt n).2 = RunState.aborted →
      ∃ k, k < n ∧ rAt k = Status.error := by
  intro n
  induction n with
  | zero => intro h; simp [compactRun] at h
  | succ n ih =>
    intro h
    cases hp : (compactRun rAt n).2 with
    | running =>
        have hstep : compactRun rAt (n + 1) =
            ((compactRun rAt n).1 ++ (compactIteration (rAt n)).1,
             (compactIteration (rAt n)).2) := by
          show stepRun _ _ = _
          rw [stepRun_running _ _ hp]
        rw [hstep] at h
        exact ⟨n, Nat.lt_succ_self n,
          compactIteration_aborted_compact_failed _ h⟩
    | aborted =>
        obtain ⟨k, hk, he⟩ := ih hp
        exact ⟨k, Nat.lt_succ_of_lt hk, he⟩
    | exited => exact absurd hp (compactRun_not_exited rAt n)

/-- Once aborted, the compact loop performs no further iterations. -/
lemma compactRun_absorb (rAt : Nat → Status) (k : Nat)
    (hk : (compactRun rAt k).2 = RunState.aborted) :
    ∀ m, k ≤ m → compactRun rAt m = compactRun rAt k := by
  intro m hm
  induction m, hm using Nat.le_induction with
  | base => rfl
  | succ m hm ih =>
    show stepRun (compactRun rAt m) (compactIteration (rAt m)) = _
    rw [ih, stepRun_not_running _ _ (by rw [hk]; simp)]

/-- While alive, the compact loop has issued exactly one compact call per
iteration so far. -/
lemma compactRun_running_count (rAt : Nat → Status) :
    ∀ n, (compactRun rAt n).2 = RunState.running →
      ((compactRun rAt n).1.filter isCompact).length = n := by
  intro n
  induction n with
  | zero => intro _; simp [compactRun]
  | succ n ih =>
    intro h
    cases hp : (compactRun rAt n).2 with
    | running =>
        have hstep : compactRun rAt (n + 1) =
            ((compactRun rAt n).1 ++ (compactIteration (rAt n)).1,
             (compactIteration (rAt n)).2) := by
          show stepRun _ _ = _
          rw [stepRun_running _ _ hp]
        rw [hstep]
        simp only [List.filter_append, List.length_append,
          compactIteration_one_compact, ih hp]
        rfl
    | aborted =>
        rw [show compactRun rAt (n + 1) =
            stepRun (compactRun rAt n) (compactIteration (rAt n)) from rfl,
          stepRun_not_running _ _ (by rw [hp]; simp), hp] at h
        cases h
    | exited => exact absurd hp (compactRun_not_exited rAt n)

/-- C2: every bootstrap trace is an initial segment of the canonical
ordered step list (metadata load/create, tablet construction, open, peer
construction, init, start, registry publication, in that order), and a
metadata load/create failure leaves a trace with that single call: the
process aborts with zero calls to open, init, start, or publish. -/
theorem bootstrap_strict_order_and_metadata_failure (o : BootstrapOracle) :
    (bootstrap o).1 = bootstrapOrder.take (bootstrapSteps o) ∧
    (o.loadOrCreate = Status.error →
      (bootstrap o).1 = [Event.loadOrCreateCall] ∧
      (bootstrap o).2 = BootResult.aborted ∧
      Event.openCall ∉ (bootstrap o).1 ∧
      Event.initCall ∉ (bootstrap o).1 ∧
      Event.startCall ∉ (bootstrap o).1 ∧
      Event.registerCall ∉ (bootstrap o).1) := by
  obtain ⟨a, b, c, d⟩ := o
  cases a <;> cases b <;> cases c <;> cases d <;> decide

/-- C2 witness: a failing metadata load with every later call set to
succeed still yields the single-call trace. -/
theorem bootstrap_metadata_failure_witness :
    (bootstrap ⟨Status.error, Status.ok, Status.ok, Status.ok⟩).1 =
      [Event.loadOrCreateCall] :=
  ((bootstrap_strict_order_and_metadata_failure
      ⟨Status.error, Status.ok, Status.ok, Status.ok⟩).2 rfl).1

/-- C3: every error in this core is fatal — bootstrap completes iff all
four checked calls succeed; a failed flush aborts the process when the
flush is attempted; a failed compact aborts the process; and when the
second compact invocation fails, every longer run still contains exactly
two compact calls and ends aborted (no further compact iteration). -/
theorem errors_fatal_and_second_compact_failure_terminates
    (o : BootstrapOracle) (flagMb : Int) (usage : Nat)
    (rAt : Nat → Status) (n : Nat) :
    ((bootstrap o).2 = BootResult.completed ↔
      o.loadOrCreate = Status.ok ∧ o.openTablet = Status.ok ∧
      o.peerInit = Status.ok ∧ o.peerStart = Status.ok) ∧
    (thresholdSizeT flagMb < usage →
      (flushIteration flagMb usage Status.error).2 = RunState.aborted) ∧
    (compactIteration Status.error).2 = RunState.aborted ∧
    (rAt 0 = Status.ok → rAt 1 = Status.error → 2 ≤ n →
      ((compactRun rAt n).1.filter isCompact).length = 2 ∧
      (compactRun rAt n).2 = RunState.aborted) := by
  refine ⟨?_, ?_, rfl, ?_⟩
  · obtain ⟨a, b, c, d⟩ := o
    cases a <;> cases b <;> cases c <;> cases d <;> decide
  · intro h
    simp [flushIteration, h]
  · intro h0 h1 hn
    have e0 : compactRun rAt 0 = ([], RunState.running) := rfl
    have e1 : compactRun rAt 1 =
        ([Event.compactCall CompactFlags.noFlags,
          Event.usleepCall (3000 * 1000)], RunState.running) := by
      show stepRun (compactRun rAt 0) (compactIteration (rAt 0)) = _
      rw [e0, h0]
      rfl
    have e2 : compactRun rAt 2 =
        ([Event.compactCall CompactFlags.noFlags,
          Event.usleepCall (3000 * 1000),
          Event.compactCall CompactFlags.noFlags], RunState.aborted) := by
      show stepRun (compactRun rAt 1) (compactIteration (rAt 1)) = _
      rw [e1, h1]
      rfl
    rw [compactRun_absorb rAt 2 (by rw [e2]) n hn, e2]
    exact ⟨rfl, rfl⟩

/-- C3 witness: with the compact call failing from its second invocation
on, a five-iteration run shows exactly two compact calls and an aborted
process. -/
theorem errors_fatal_witness :
    ((compactRun (fun i => if i = 0 then Status.ok else Status.error) 5).1.filter
        isCompact).length = 2 ∧
    (compactRun (fun i => if i = 0 then Status.ok else Status.error) 5).2 =
      RunState.aborted :=
  (errors_fatal_and_second_compact_failure_terminates
      ⟨Status.ok, Status.ok, Status.ok, Status.ok⟩ 64 0
      (fun i => if i = 0 then Status.ok else Status.error) 5).2.2.2
    rfl rfl (by norm_num)

/-- C4: every compact iteration issues exactly one compact call, with
`COMPACT_NO_FLAGS`, unconditionally; consequently an `n`-iteration run
that is still alive has issued exactly `n` compact calls. -/
theorem compactTask_unconditional_once_per_iteration
    (r : Status) (rAt : Nat → Status) (n : Nat) :
    (compactIteration r).1.filter isCompact =
      [Event.compactCall CompactFlags.noFlags] ∧
    ((compactRun rAt n).2 = RunState.running →
      ((compactRun rAt n).1.filter isCompact).length = n) :=
  ⟨compactIteration_one_compact r, compactRun_running_count rAt n⟩

/-- C4 witness: three successful iterations issue three compact calls. -/
theorem compactTask_once_witness :
    ((compactRun (fun _ => Status.ok) 3).1.filter isCompact).length = 3 :=
  (compactTask_unconditional_once_per_iteration Status.ok
      (fun _ => Status.ok) 3).2 rfl

/-- C7: in every continuing iteration, the flush loop sleeps exactly once,
for 250 ms (`usleep(250 * 1000)` microseconds), and the compact loop
sleeps exactly once, for 3000 ms (`usleep(3000 * 1000)` microseconds). -/
theorem maintenance_intervals_250ms_and_3000ms (flagMb : Int) (usage : Nat) :
    (flushIteration flagMb usage Status.ok).1.filter isSleep =
      [Event.usleepCall (millisToMicros 250)] ∧
    (compactIteration Status.ok).1.filter isSleep =
      [Event.usleepCall (millisToMicros 3000)] := by
  constructor
  · by_cases hg : thresholdSizeT flagMb < usage <;>
      simp [flushIteration, hg, isSleep, millisToMicros]
  · rfl

/-- C8: neither loop ever reaches a normal-exit state; while a loop is
alive it always performs a next iteration (its trace strictly grows);
and the only way out of either loop is a process abort caused by a
failed call. -/
theorem loops_never_terminate_on_their_own
    (flagMb : Int) (uAt : Nat → Nat) (fAt rAt : Nat → Status) (n : Nat) :
    (flushRun flagMb uAt fAt n).2 ≠ RunState.exited ∧
    (compactRun rAt n).2 ≠ RunState.exited ∧
    ((flushRun flagMb uAt fAt n).2 = RunState.running →
      (flushRun flagMb uAt fAt n).1.length <
        (flushRun flagMb uAt fAt (n + 1)).1.length) ∧
    ((compactRun rAt n).2 = RunState.running →
      (compactRun rAt n).1.length < (compactRun rAt (n + 1)).1.length) ∧
    ((flushRun flagMb uAt fAt n).2 = RunState.aborted →
      ∃ k, k < n ∧ fAt k = Status.error) ∧
    ((compactRun rAt n).2 = RunState.aborted →
      ∃ k, k < n ∧ rAt k = Status.error) :=
  ⟨flushRun_not_exited flagMb uAt fAt n, compactRun_not_exited rAt n,
   flushRun_growth flagMb uAt fAt n, compactRun_growth rAt n,
   flushRun_aborted_failure flagMb uAt fAt n, compactRun_aborted_failure rAt n⟩

/-- C8 witness: a healthy flush loop takes a next iteration after two
iterations, strictly extending its trace. -/
theorem loops_never_terminate_witness :
    (flushRun 64 (fun _ => 0) (fun _ => Status.ok) 2).1.length <
      (flushRun 64 (fun _ => 0) (fun _ => Status.ok) 3).1.length :=
  (loops_never_terminate_on_their_own 64 (fun _ => 0) (fun _ => Status.ok)
      (fun _ => Status.ok) 2).2.2.1 (by decide)

/-- C9: with any positional argument left after flag parsing
(`argc != 1`), `TabletServerMain` prints the usage message and returns
exit code 1, with no server init, no metadata load (hence no bootstrap),
and no maintenance threads started. -/
theorem extra_positional_args_usage_exit (argc : Nat) (o : MainOracle)
    (h : argc ≠ 1) :
    tabletServerMain argc o = ([Event.printUsage], MainResult.exitCode 1) ∧
    Event.serverInitCall ∉ (tabletServerMain argc o).1 ∧
    Event.loadOrCreateCall ∉ (tabletServerMain argc o).1 ∧
    Event.startMaintenanceThreads ∉ (tabletServerMain argc o).1 := by
  have ht : tabletServerMain argc o =
      ([Event.printUsage], MainResult.exitCode 1) := by
    simp [tabletServerMain, h]
  refine ⟨ht, ?_, ?_, ?_⟩ <;> rw [ht] <;> simp

/-- C9 witness: `argc = 2` with every external call set to succeed. -/
theorem extra_positional_args_witness :
    tabletServerMain 2
        ⟨Status.ok, ⟨Status.ok, Status.ok, Status.ok, Status.ok⟩, Status.ok⟩ =
      ([Event.printUsage], MainResult.exitCode 1) :=
  (extra_positional_args_usage_exit 2
      ⟨Status.ok, ⟨Status.ok, Status.ok, Status.ok, Status.ok⟩, Status.ok⟩
      (by decide)).1

/-- C10: within each iteration the operation precedes the delay: a flush
iteration begins with the memory-usage read and a compact iteration with
the compact call; no sleep occurs before the final position of an
iteration trace; and the very first action of each loop (a one-iteration
run) is its operation, not a sleep. -/
theorem operation_precedes_sleep_each_iteration
    (flagMb : Int) (usage : Nat) (r : Status)
    (uAt : Nat → Nat) (fAt rAt : Nat → Status) :
    (flushIteration flagMb usage r).1.head? = some (Event.memCheck usage) ∧
    (compactIteration r).1.head? =
      some (Event.compactCall CompactFlags.noFlags) ∧
    (flushIteration flagMb usage r).1.dropLast.filter isSleep = [] ∧
    (compactIteration r).1.dropLast.filter isSleep = [] ∧
    (flushRun flagMb uAt fAt 1).1.head? = some (Event.memCheck (uAt 0)) ∧
    (compactRun rAt 1).1.head? =
      some (Event.compactCall CompactFlags.noFlags) := by
  refine ⟨flushIteration_head flagMb usage r, compactIteration_head r,
    ?_, ?_, ?_, ?_⟩
  · by_cases hg : thresholdSizeT flagMb < usage <;>
      cases r <;> simp [flushIteration, hg, isSleep]
  · cases r <;> rfl
  · show (stepRun (flushRun flagMb uAt fAt 0)
        (flushIteration flagMb (uAt 0) (fAt 0))).1.head? = _
    rw [stepRun_running _ _ rfl]
    show ([] ++ (flushIteration flagMb (uAt 0) (fAt 0)).1).head? = _
    rw [List.nil_append]
    exact flushIteration_head flagMb (uAt 0) (fAt 0)
  · show (stepRun (compactRun rAt 0) (compactIteration (rAt 0))).1.head? = _
    rw [stepRun_running _ _ rfl]
    show ([] ++ (compactIteration (rAt 0)).1).head? = _
    rw [List.nil_append]
    exact compactIteration_head (rAt 0)
